import Mathlib

/-!
Shallow embedding of the APNs HTTP/2 client (apns2/client.py) and proofs about
its adaptive stream-concurrency pipelining algorithm.

The transport session (hyper's HTTP20Connection) is external; it is modelled by
an environment supplying the raw concurrency limit read at each scheduling
iteration and the response for each stream id.  Stream ids are modelled as a
counter incremented on each submission.  A response body is represented by its
parsed reason field: `some r` means the body JSON-decodes to an object whose
reason field is `r`; `none` means the body cannot be decoded (or lacks the
field), in which case reading it raises a decode error.
-/

/-- NotificationPriority enum: Immediate = "10", Delayed = "5". -/
inductive NotificationPriority where
  | Immediate
  | Delayed
deriving DecidableEq, Repr

/-- The wire value of a priority, as in the Python Enum. -/
def NotificationPriority.value : NotificationPriority → String
  | .Immediate => "10"
  | .Delayed => "5"

def DEFAULT_APNS_PRIORITY : NotificationPriority := .Immediate

def CONCURRENT_STREAMS_SAFETY_MAXIMUM : Int := 1000

def MAX_CONNECTION_RETRIES : Nat := 3

/-- Notification namedtuple: (token, payload).  The payload is opaque to the
scheduler; JSON serialization is out of scope, so it is carried as a string. -/
structure Notification where
  token : String
  payload : String
deriving DecidableEq, Repr

/-- RequestStream namedtuple: (stream_id, token). -/
structure RequestStream where
  stream_id : Nat
  token : String
deriving DecidableEq, Repr

/-- A completed HTTP response.  `reason` is the parsed reason field of the
body: `none` models a body that fails JSON decoding or lacks the field. -/
structure Response where
  status : Nat
  reason : Option String
deriving DecidableEq, Repr

/-- The error kinds the client can raise. -/
inductive ApnsError where
  | connectionFailed
  | responseDecodeFailed
  | notificationRejected (reason : String)
  | popFromEmptyDeque
  | limitUnset
deriving DecidableEq, Repr

/-- The wire request produced by send_notification_async: path, headers, body. -/
structure OutgoingRequest where
  path : String
  headers : List (String × String)
  body : String
deriving DecidableEq, Repr

/-- The headers dict built in send_notification_async: apns-topic always;
apns-priority only when priority differs from DEFAULT_APNS_PRIORITY;
apns-expiration only when expiration is not None, formatted with percent-d. -/
def send_notification_async_headers (topic : String) (priority : NotificationPriority)
    (expiration : Option Int) : List (String × String) :=
  [("apns-topic", topic)]
    ++ (if priority ≠ DEFAULT_APNS_PRIORITY then [("apns-priority", priority.value)] else [])
    ++ (match expiration with
        | some e => [("apns-expiration", toString e)]
        | none => [])

/-- send_notification_async: builds the request.  The stream id handed back by
the transport is modelled separately, in the dispatch loop state. -/
def send_notification_async (token_hex payload topic : String)
    (priority : NotificationPriority) (expiration : Option Int) : OutgoingRequest :=
  { path := "/3/device/" ++ token_hex,
    headers := send_notification_async_headers topic priority expiration,
    body := payload }

/-- get_notification_result: status 200 returns the string Success without
touching the body; otherwise the body is read and JSON-parsed and the reason
field returned, a parse failure propagating as a decode error. -/
def get_notification_result (resp : Response) : Except ApnsError String :=
  if resp.status = 200 then .ok "Success"
  else
    match resp.reason with
    | some r => .ok r
    | none => .error .responseDecodeFailed

/-- send_notification: drains the single stream and raises
exception_class_for_reason(result) when the result string differs from
the sentinel string Success. -/
def send_notification (resp : Response) : Except ApnsError Unit :=
  match get_notification_result resp with
  | .error e => .error e
  | .ok result => if result ≠ "Success" then .error (.notificationRejected result) else .ok ()

/-- The concurrency-limit tracking state of APNsClient: the last raw
max_concurrent_streams seen from the server, and the effective limit.
Both are initialized to None in the constructor. -/
structure Tracker where
  previous_server_max_concurrent_streams : Option Int
  max_concurrent_streams : Option Int
deriving DecidableEq, Repr

def initialTracker : Tracker :=
  { previous_server_max_concurrent_streams := none, max_concurrent_streams := none }

/-- The clamping applied in update_max_concurrent_streams: values above the
safety maximum become the maximum, values below 1 become 1, the rest pass. -/
def clampConcurrentStreams (raw : Int) : Int :=
  if raw > CONCURRENT_STREAMS_SAFETY_MAXIMUM then CONCURRENT_STREAMS_SAFETY_MAXIMUM
  else if raw < 1 then 1
  else raw

/-- update_max_concurrent_streams.  The raw value read from the connection is
passed as an argument.  If it equals the previously seen raw value the function
returns early leaving the state untouched; otherwise it records the raw value
and stores the clamped effective limit.  The Python function has no return
value on any path (a bare return, or falling off the end), i.e. it always
returns None; the second component models that returned value. -/
def update_max_concurrent_streams (raw : Int) (s : Tracker) : Tracker × Option Bool :=
  if some raw = s.previous_server_max_concurrent_streams then (s, none)
  else
    ({ previous_server_max_concurrent_streams := some raw,
       max_concurrent_streams := some (clampConcurrentStreams raw) }, none)

/-- connect, modelled from attempt index to success.  `attempts k` tells
whether the k-th connection attempt (0-indexed) would succeed.  The returned
Nat is the number of attempts performed on success (ghost instrumentation:
the Python function returns None); after MAX_CONNECTION_RETRIES failures the
loop exits and ConnectionFailed is raised. -/
def connectFrom (attempts : Nat → Bool) (retries : Nat) : Except ApnsError Nat :=
  if retries < MAX_CONNECTION_RETRIES then
    if attempts retries then .ok (retries + 1)
    else connectFrom attempts (retries + 1)
  else .error .connectionFailed
termination_by MAX_CONNECTION_RETRIES - retries
decreasing_by omega

def connect (attempts : Nat → Bool) : Except ApnsError Nat :=
  connectFrom attempts 0

/-- The environment standing for the transport session: the raw
max_concurrent_streams value read at the k-th update call, and the response
eventually delivered for each stream id. -/
structure Env where
  rawLimits : Nat → Int
  responses : Nat → Response

/-- The state of one send_notification_batch invocation.  `pending` holds
next_notification followed by the rest of the iterator; `openStreams` is the
deque (head = oldest); `results` is the insertion-ordered dict.  `iter` counts
update calls (indexing Env.rawLimits); `submitted` and `drained` are ghost
trace fields, absent from the source, recording the stream ids in submission
order and in the order get_notification_result is called on them. -/
structure LoopState where
  tracker : Tracker
  pending : List Notification
  openStreams : List RequestStream
  results : List (String × String)
  nextStreamId : Nat
  iter : Nat
  submitted : List Nat
  drained : List Nat
deriving DecidableEq, Repr

/-- Python dict assignment on an insertion-ordered association list: replace
in place when the key exists, append otherwise. -/
def dictInsert (m : List (String × String)) (k v : String) : List (String × String) :=
  match m with
  | [] => [(k, v)]
  | (k', v') :: rest => if k' = k then (k, v) :: rest else (k', v') :: dictInsert rest k v

/-- should_send_notification: notification is not None and len(open_streams) is
below the limit.  Python's `and` short-circuits, so a None notification yields
False without comparing; comparing an int against a None limit would be a
TypeError, modelled by the `none` result. -/
def should_send_notification (n : Option Notification) (openCount : Nat)
    (limit : Option Int) : Option Bool :=
  match n with
  | none => some false
  | some _ => limit.map (fun l => decide ((openCount : Int) < l))

/-- The tracker after the update call made at the top of a loop iteration. -/
def updatedTracker (env : Env) (s : LoopState) : Tracker :=
  (update_max_concurrent_streams (env.rawLimits s.iter) s.tracker).1

/-- The state after the drain branch resolves the oldest open stream `p` with
result `r`: the stream leaves the deque and the result is stored under its
token.  `t` is the tracker after this iteration's update call. -/
def drainState (t : Tracker) (p : RequestStream) (restOpen : List RequestStream)
    (r : String) (s : LoopState) : LoopState :=
  { s with
    tracker := t
    openStreams := restOpen
    results := dictInsert s.results p.token r
    iter := s.iter + 1
    drained := s.drained ++ [p.stream_id] }

/-- The state after the admit branch submits notification `n`: a fresh stream
id is appended to the open-streams deque and the input cursor advances. -/
def admitState (t : Tracker) (n : Notification) (rest : List Notification)
    (s : LoopState) : LoopState :=
  { s with
    tracker := t
    pending := rest
    openStreams := s.openStreams ++ [{ stream_id := s.nextStreamId, token := n.token }]
    nextStreamId := s.nextStreamId + 1
    iter := s.iter + 1
    submitted := s.submitted ++ [s.nextStreamId] }

/-- The drain branch of the batch loop: popleft the oldest open stream (an
empty deque would raise IndexError) and call get_notification_result on it. -/
def drainStep (env : Env) (t : Tracker) (s : LoopState) : Except ApnsError LoopState :=
  match s.openStreams with
  | [] => .error .popFromEmptyDeque
  | p :: restOpen =>
    match get_notification_result (env.responses p.stream_id) with
    | .error e => .error e
    | .ok r => .ok (drainState t p restOpen r s)

/-- One iteration of the send_notification_batch while loop: refresh the
limit, then either admit the next notification (when should_send_notification
holds) or drain the oldest open stream. -/
def dispatchStep (env : Env) (s : LoopState) : Except ApnsError LoopState :=
  match s.pending with
  | [] => drainStep env (updatedTracker env s) s
  | n :: rest =>
    match should_send_notification (some n) s.openStreams.length
        (updatedTracker env s).max_concurrent_streams with
    | none => .error .limitUnset
    | some true => .ok (admitState (updatedTracker env s) n rest s)
    | some false => drainStep env (updatedTracker env s) s

/-- The while-loop guard: len(open_streams) > 0 or next_notification is not None. -/
def loopGuard (s : LoopState) : Bool := !s.openStreams.isEmpty || !s.pending.isEmpty

/-- The batch loop, with an explicit iteration budget; `none` means the budget
ran out before the loop exited (the termination theorem shows a budget of
twice the input length plus one always suffices). -/
def dispatchLoop (env : Env) : Nat → LoopState → Option (Except ApnsError (List (String × String)))
  | 0, _ => none
  | fuel + 1, s =>
    if loopGuard s then
      match dispatchStep env s with
      | .error e => some (.error e)
      | .ok s' => dispatchLoop env fuel s'
    else
      some (.ok s.results)

/-- The state at entry of the batch loop: fresh tracker (the constructor sets
both fields to None), the full input pending, nothing open, empty results. -/
def initState (ns : List Notification) : LoopState :=
  { tracker := initialTracker, pending := ns, openStreams := [], results := [],
    nextStreamId := 0, iter := 0, submitted := [], drained := [] }

/-- send_notification_batch: run the loop from the initial state.  The budget
2n+1 is exact: each notification is admitted once and drained once. -/
def send_notification_batch (env : Env) (ns : List Notification) :
    Option (Except ApnsError (List (String × String))) :=
  dispatchLoop env (2 * ns.length + 1) (initState ns)

/-- States reachable during one batch dispatch: the initial state, and any
state produced by a loop iteration from a reachable state while the guard holds. -/
inductive Reachable (env : Env) (init : LoopState) : LoopState → Prop where
  | refl : Reachable env init init
  | step {s s' : LoopState} : Reachable env init s → loopGuard s = true →
      dispatchStep env s = .ok s' → Reachable env init s'

/-- Decrease measure for the loop: every successful iteration lowers it by one. -/
def loopMeasure (s : LoopState) : Nat := 2 * s.pending.length + s.openStreams.length

/-- The tracker invariant: once a raw value has been recorded, the effective
limit is set and clamped into the safe range. -/
def trackerInv (t : Tracker) : Prop :=
  ∀ p, t.previous_server_max_concurrent_streams = some p →
    ∃ l, t.max_concurrent_streams = some l ∧ 1 ≤ l ∧ l ≤ 1000

def stateInv (s : LoopState) : Prop := trackerInv s.tracker

/-- The keys of the results dict. -/
def keys (m : List (String × String)) : List String := m.map Prod.fst

/-- All tokens accounted for by a loop state: already resolved, in flight,
or not yet submitted. -/
def allTokens (s : LoopState) : List String :=
  keys s.results ++ s.openStreams.map RequestStream.token ++ s.pending.map Notification.token

/-- A well-behaved gateway for concrete runs: constant raw limit 500, every
response a bare 200. -/
def envW : Env :=
  { rawLimits := fun _ => 500,
    responses := fun _ => { status := 200, reason := none } }

/-- Three notifications, the first and last sharing a recipient token. -/
def nsW : List Notification :=
  [{ token := "a", payload := "p1" }, { token := "b", payload := "p2" },
   { token := "a", payload := "p3" }]

/-- The result map produced by dispatching nsW against envW. -/
def mW : List (String × String) := [("a", "Success"), ("b", "Success")]

/-- A gateway that advertises a raw limit of 3 for the first three update
calls and then lowers it to 1, answering every stream with a bare 200. -/
def envC : Env :=
  { rawLimits := fun k => if k < 3 then 3 else 1,
    responses := fun _ => { status := 200, reason := none } }

def nsC : List Notification :=
  [{ token := "a", payload := "pa" }, { token := "b", payload := "pb" },
   { token := "c", payload := "pc" }]

/-- After the first iteration on nsC: notification a admitted on stream 0. -/
def sC1 : LoopState :=
  { tracker := { previous_server_max_concurrent_streams := some 3,
                 max_concurrent_streams := some 3 },
    pending := [{ token := "b", payload := "pb" }, { token := "c", payload := "pc" }],
    openStreams := [{ stream_id := 0, token := "a" }],
    results := [], nextStreamId := 1, iter := 1, submitted := [0], drained := [] }

/-- After the second iteration: b admitted on stream 1. -/
def sC2 : LoopState :=
  { tracker := { previous_server_max_concurrent_streams := some 3,
                 max_concurrent_streams := some 3 },
    pending := [{ token := "c", payload := "pc" }],
    openStreams := [{ stream_id := 0, token := "a" }, { stream_id := 1, token := "b" }],
    results := [], nextStreamId := 2, iter := 2, submitted := [0, 1], drained := [] }

/-- After the third iteration: c admitted on stream 2, three streams open. -/
def sC3 : LoopState :=
  { tracker := { previous_server_max_concurrent_streams := some 3,
                 max_concurrent_streams := some 3 },
    pending := [],
    openStreams := [{ stream_id := 0, token := "a" }, { stream_id := 1, token := "b" },
                    { stream_id := 2, token := "c" }],
    results := [], nextStreamId := 3, iter := 3, submitted := [0, 1, 2], drained := [] }

/-- After the fourth iteration: the server lowered the limit to 1, stream 0
drained, two streams still open against an effective limit of 1. -/
def sC4 : LoopState :=
  { tracker := { previous_server_max_concurrent_streams := some 1,
                 max_concurrent_streams := some 1 },
    pending := [],
    openStreams := [{ stream_id := 1, token := "b" }, { stream_id := 2, token := "c" }],
    results := [("a", "Success")], nextStreamId := 3, iter := 4,
    submitted := [0, 1, 2], drained := [0] }

theorem connectFrom_unfold (attempts : Nat → Bool) (retries : Nat) :
    connectFrom attempts retries =
      if retries < MAX_CONNECTION_RETRIES then
        if attempts retries then .ok (retries + 1)
        else connectFrom attempts (retries + 1)
      else .error .connectionFailed := by
  rw [connectFrom]

theorem connect_eq (attempts : Nat → Bool) :
    connect attempts =
      if attempts 0 then .ok 1
      else if attempts 1 then .ok 2
      else if attempts 2 then .ok 3
      else .error .connectionFailed := by
  have h0 := connectFrom_unfold attempts 0
  have h1 := connectFrom_unfold attempts 1
  have h2 := connectFrom_unfold attempts 2
  have h3 := connectFrom_unfold attempts 3
  norm_num [MAX_CONNECTION_RETRIES] at h0 h1 h2 h3
  unfold connect
  rw [h0, h1, h2, h3]

/-- Claim C4: whenever the raw concurrency value differs from the last-seen raw
value, update_max_concurrent_streams sets the effective limit to a value in
[1, 1000]: values above the safety maximum clamp to 1000, values below 1 clamp
to 1, values in range pass through; in particular raw 0, 1, 500, 1000, 1001
and 5000 give 1, 1, 500, 1000, 1000 and 1000. -/
theorem update_clamp_spec :
    (∀ (raw : Int) (s : Tracker),
      some raw ≠ s.previous_server_max_concurrent_streams →
      ∃ l, (update_max_concurrent_streams raw s).1.max_concurrent_streams = some l ∧
        1 ≤ l ∧ l ≤ 1000 ∧
        (raw > 1000 → l = 1000) ∧ (raw < 1 → l = 1) ∧
        (1 ≤ raw → raw ≤ 1000 → l = raw)) ∧
    (update_max_concurrent_streams 0 initialTracker).1.max_concurrent_streams = some 1 ∧
    (update_max_concurrent_streams 1 initialTracker).1.max_concurrent_streams = some 1 ∧
    (update_max_concurrent_streams 500 initialTracker).1.max_concurrent_streams = some 500 ∧
    (update_max_concurrent_streams 1000 initialTracker).1.max_concurrent_streams = some 1000 ∧
    (update_max_concurrent_streams 1001 initialTracker).1.max_concurrent_streams = some 1000 ∧
    (update_max_concurrent_streams 5000 initialTracker).1.max_concurrent_streams = some 1000 := by
  refine ⟨?_, by decide, by decide, by decide, by decide, by decide, by decide⟩
  intro raw s h
  unfold update_max_concurrent_streams
  rw [if_neg h]
  refine ⟨clampConcurrentStreams raw, rfl, ?_⟩
  unfold clampConcurrentStreams CONCURRENT_STREAMS_SAFETY_MAXIMUM
  split_ifs <;> omega

theorem update_clamp_spec_w :
    ∃ l, (update_max_concurrent_streams 5000 initialTracker).1.max_concurrent_streams = some l ∧
      1 ≤ l ∧ l ≤ 1000 ∧
      ((5000 : Int) > 1000 → l = 1000) ∧ ((5000 : Int) < 1 → l = 1) ∧
      ((1 : Int) ≤ 5000 → (5000 : Int) ≤ 1000 → l = 5000) :=
  update_clamp_spec.1 5000 initialTracker (by decide)

/-- Claim C5 counterexample: update_max_concurrent_streams does not return a
boolean indicating whether the effective limit changed — the Python function
returns None on every path.  Here a call that does change the effective limit
returns None, identical to the return value of the subsequent no-change call. -/
theorem update_no_boolean_return :
    (update_max_concurrent_streams 500 initialTracker).2 = none ∧
    (update_max_concurrent_streams 500 initialTracker).1.max_concurrent_streams
        ≠ initialTracker.max_concurrent_streams ∧
    (update_max_concurrent_streams 500
        (update_max_concurrent_streams 500 initialTracker).1).2 = none ∧
    (update_max_concurrent_streams 500
        (update_max_concurrent_streams 500 initialTracker).1).1
      = (update_max_concurrent_streams 500 initialTracker).1 := by
  decide

/-- Claim C5 (amended): update_max_concurrent_streams is idempotent — calling
it a second time with an unchanged raw value takes the early no-change return
and leaves both the effective limit and the last-seen raw value exactly as
they were after the first call; its return value is always None, never a
boolean change flag. -/
theorem update_idempotent (raw : Int) (s : Tracker) :
    (update_max_concurrent_streams raw (update_max_concurrent_streams raw s).1).1
      = (update_max_concurrent_streams raw s).1 ∧
    (update_max_concurrent_streams raw (update_max_concurrent_streams raw s).1).2 = none ∧
    (update_max_concurrent_streams raw s).1.previous_server_max_concurrent_streams
      = some raw := by
  by_cases h : some raw = s.previous_server_max_concurrent_streams
  · simp [update_max_concurrent_streams, ← h]
  · simp [update_max_concurrent_streams, h]

/-- Claim C7 counterexample: a gateway failure whose reason string equals
Success is not raised — send_notification compares the sentinel string, so a
non-200 response carrying reason Success returns normally. -/
theorem success_reason_confused :
    ({ status := 410, reason := some "Success" } : Response).status ≠ 200 ∧
    get_notification_result { status := 410, reason := some "Success" } = .ok "Success" ∧
    send_notification { status := 410, reason := some "Success" } = .ok () :=
  ⟨by decide, rfl, rfl⟩

/-- Claim C7 (amended): send_notification raises a typed error carrying the
interpreted reason string exactly when that string differs from the sentinel
string Success, and returns normally otherwise; a gateway failure whose reason
string equals Success is therefore confused with success and not raised. -/
theorem send_raises_iff_not_success (resp : Response) (r : String)
    (h : get_notification_result resp = .ok r) :
    (r = "Success" → send_notification resp = .ok ()) ∧
    (r ≠ "Success" → send_notification resp = .error (.notificationRejected r)) := by
  unfold send_notification
  rw [h]
  constructor
  · intro hr
    simp [hr]
  · intro hr
    simp [hr]

theorem send_raises_iff_not_success_w :
    send_notification { status := 410, reason := some "Unregistered" }
      = .error (.notificationRejected "Unregistered") :=
  (send_raises_iff_not_success { status := 410, reason := some "Unregistered" }
    "Unregistered" rfl).2 (by decide)

/-- Claim C10: a response with status 200 is interpreted as Success with the
body never read or parsed — any reason field, including an undecodable body,
gives Success — while every non-200 status reads the body, failing when it
cannot be decoded and returning its reason field otherwise. -/
theorem result_no_body_on_200 (status : Nat) (body : Option String) :
    (status = 200 →
      get_notification_result { status := status, reason := body } = .ok "Success") ∧
    (status ≠ 200 → body = none →
      get_notification_result { status := status, reason := body }
        = .error .responseDecodeFailed) ∧
    (∀ r, status ≠ 200 → body = some r →
      get_notification_result { status := status, reason := body } = .ok r) := by
  unfold get_notification_result
  exact ⟨fun h => by simp [h], fun h hb => by simp [h, hb], fun r h hb => by simp [h, hb]⟩

theorem result_no_body_on_200_w :
    get_notification_result { status := 200, reason := none } = .ok "Success" :=
  (result_no_body_on_200 200 none).1 rfl

/-- Claim C8: connect makes at most MAX_CONNECTION_RETRIES = 3 attempts — its
outcome depends only on the first three attempt results (no 4th attempt is
consulted); three consecutive failures raise ConnectionFailed; the first
success among the first three returns immediately after that attempt; any
successful return was reached within 3 attempts. -/
theorem connect_retry_bound :
    (∀ a b : Nat → Bool, (∀ i, i < MAX_CONNECTION_RETRIES → a i = b i) →
      connect a = connect b) ∧
    (∀ a : Nat → Bool, (∀ i, i < MAX_CONNECTION_RETRIES → a i = false) →
      connect a = .error .connectionFailed) ∧
    (∀ (a : Nat → Bool) (k : Nat), k < MAX_CONNECTION_RETRIES → a k = true →
      (∀ j, j < k → a j = false) → connect a = .ok (k + 1)) ∧
    (∀ (a : Nat → Bool) (n : Nat), connect a = .ok n →
      1 ≤ n ∧ n ≤ MAX_CONNECTION_RETRIES) := by
  refine ⟨?_, ?_, ?_, ?_⟩
  · intro a b h
    rw [connect_eq, connect_eq,
      h 0 (by norm_num [MAX_CONNECTION_RETRIES]),
      h 1 (by norm_num [MAX_CONNECTION_RETRIES]),
      h 2 (by norm_num [MAX_CONNECTION_RETRIES])]
  · intro a h
    rw [connect_eq,
      h 0 (by norm_num [MAX_CONNECTION_RETRIES]),
      h 1 (by norm_num [MAX_CONNECTION_RETRIES]),
      h 2 (by norm_num [MAX_CONNECTION_RETRIES])]
    simp
  · intro a k hk ha hj
    simp only [MAX_CONNECTION_RETRIES] at hk
    interval_cases k
    · rw [connect_eq, ha]
      simp
    · rw [connect_eq, hj 0 (by omega), ha]
      simp
    · rw [connect_eq, hj 0 (by omega), hj 1 (by omega), ha]
      simp
  · intro a n h
    rw [connect_eq] at h
    simp only [MAX_CONNECTION_RETRIES]
    split_ifs at h <;> simp_all <;> omega

theorem connect_retry_bound_w :
    connect (fun _ => false) = .error .connectionFailed :=
  connect_retry_bound.2.1 (fun _ => false) (fun _ _ => rfl)

/-- Claim C9: the apns-topic header is always present; apns-priority is
present exactly when the priority differs from the Immediate default (value
"5" for Delayed); apns-expiration is present exactly when an expiration is
supplied, as a decimal integer string; with default priority and no expiration
the headers are exactly apns-topic, and with delayed priority and expiration
100 all three headers appear with apns-priority 5 and apns-expiration 100. -/
theorem headers_contract (token_hex payload topic : String)
    (priority : NotificationPriority) (expiration : Option Int) :
    ("apns-topic", topic)
        ∈ (send_notification_async token_hex payload topic priority expiration).headers ∧
    ((∃ v, ("apns-priority", v)
        ∈ (send_notification_async token_hex payload topic priority expiration).headers)
      ↔ priority ≠ DEFAULT_APNS_PRIORITY) ∧
    (priority = .Delayed → ("apns-priority", "5")
        ∈ (send_notification_async token_hex payload topic priority expiration).headers) ∧
    ((∃ v, ("apns-expiration", v)
        ∈ (send_notification_async token_hex payload topic priority expiration).headers)
      ↔ expiration.isSome) ∧
    (∀ e, expiration = some e → ("apns-expiration", toString e)
        ∈ (send_notification_async token_hex payload topic priority expiration).headers) ∧
    (send_notification_async token_hex payload topic .Immediate none).headers
      = [("apns-topic", topic)] ∧
    (send_notification_async token_hex payload topic .Delayed (some 100)).headers
      = [("apns-topic", topic), ("apns-priority", "5"), ("apns-expiration", "100")] := by
  refine ⟨?_, ?_, ?_, ?_, ?_, rfl, rfl⟩ <;>
    cases priority <;> cases expiration <;>
      simp [send_notification_async, send_notification_async_headers,
        DEFAULT_APNS_PRIORITY, NotificationPriority.value]

theorem headers_contract_w :
    ("apns-priority", "5")
      ∈ (send_notification_async "t0" "p0" "top" .Delayed (some 100)).headers :=
  (headers_contract "t0" "p0" "top" .Delayed (some 100)).2.2.1 rfl

theorem get_notification_result_error (resp : Response) (e : ApnsError)
    (h : get_notification_result resp = .error e) : e = .responseDecodeFailed := by
  unfold get_notification_result at h
  split at h
  · exact absurd h (by simp)
  · split at h
    · exact absurd h (by simp)
    · injection h with h'
      exact h'.symm

theorem drainStep_shape (env : Env) (t : Tracker) (s s' : LoopState)
    (h : drainStep env t s = .ok s') :
    ∃ p restOpen r, s.openStreams = p :: restOpen ∧
      get_notification_result (env.responses p.stream_id) = .ok r ∧
      s' = drainState t p restOpen r s := by
  unfold drainStep at h
  split at h
  · exact absurd h (by simp)
  · rename_i p restOpen heq
    split at h
    · exact absurd h (by simp)
    · rename_i r hr
      injection h with h'
      exact ⟨p, restOpen, r, heq, hr, h'.symm⟩

theorem drainStep_error (env : Env) (t : Tracker) (s : LoopState) (e : ApnsError)
    (h : drainStep env t s = .error e) :
    (e = .popFromEmptyDeque ∧ s.openStreams = []) ∨ e = .responseDecodeFailed := by
  unfold drainStep at h
  split at h
  · rename_i ho
    injection h with h'
    exact Or.inl ⟨h'.symm, ho⟩
  · rename_i p restOpen ho
    split at h
    · rename_i e' hr
      injection h with h'
      rw [← h']
      exact Or.inr (get_notification_result_error _ _ hr)
    · exact absurd h (by simp)

theorem dispatchStep_shape (env : Env) (s s' : LoopState)
    (h : dispatchStep env s = .ok s') :
    (∃ n rest l, s.pending = n :: rest ∧
      (updatedTracker env s).max_concurrent_streams = some l ∧
      (s.openStreams.length : Int) < l ∧
      s' = admitState (updatedTracker env s) n rest s) ∨
    (∃ p restOpen r, s.openStreams = p :: restOpen ∧
      get_notification_result (env.responses p.stream_id) = .ok r ∧
      s' = drainState (updatedTracker env s) p restOpen r s) := by
  unfold dispatchStep at h
  split at h
  · exact Or.inr (drainStep_shape _ _ _ _ h)
  · rename_i n rest hp
    split at h
    · exact absurd h (by simp)
    · rename_i hss
      unfold should_send_notification at hss
      rw [Option.map_eq_some'] at hss
      obtain ⟨l, hl, hd⟩ := hss
      injection h with h'
      exact Or.inl ⟨n, rest, l, hp, hl, of_decide_eq_true hd, h'.symm⟩
    · exact Or.inr (drainStep_shape _ _ _ _ h)

theorem update_result_clamped (raw : Int) (t : Tracker) (h : trackerInv t) :
    ∃ l, ((update_max_concurrent_streams raw t).1).max_concurrent_streams = some l ∧
      1 ≤ l ∧ l ≤ 1000 := by
  by_cases hc : some raw = t.previous_server_max_concurrent_streams
  · simp only [update_max_concurrent_streams, if_pos hc]
    exact h raw hc.symm
  · simp only [update_max_concurrent_streams, if_neg hc]
    refine ⟨clampConcurrentStreams raw, rfl, ?_⟩
    unfold clampConcurrentStreams CONCURRENT_STREAMS_SAFETY_MAXIMUM
    split_ifs <;> omega

theorem trackerInv_update (raw : Int) (t : Tracker) (h : trackerInv t) :
    trackerInv (update_max_concurrent_streams raw t).1 :=
  fun _ _ => update_result_clamped raw t h

theorem updatedTracker_clamped (env : Env) (s : LoopState) (hs : stateInv s) :
    ∃ l, (updatedTracker env s).max_concurrent_streams = some l ∧ 1 ≤ l ∧ l ≤ 1000 :=
  update_result_clamped _ _ hs

theorem stateInv_step (env : Env) (s s' : LoopState)
    (h : dispatchStep env s = .ok s') (hs : stateInv s) : stateInv s' := by
  rcases dispatchStep_shape env s s' h with ⟨n, rest, l, hp, hl, hlt, rfl⟩ |
    ⟨p, ro, r, ho, hr, rfl⟩
  · exact trackerInv_update _ _ hs
  · exact trackerInv_update _ _ hs

theorem reachable_stateInv (env : Env) (ns : List Notification) (s : LoopState)
    (h : Reachable env (initState ns) s) : stateInv s := by
  induction h with
  | refl =>
    intro p hp
    simp [initState, initialTracker] at hp
  | step hr hg hstep ih => exact stateInv_step _ _ _ hstep ih

theorem dispatchStep_measure (env : Env) (s s' : LoopState)
    (h : dispatchStep env s = .ok s') : loopMeasure s' + 1 = loopMeasure s := by
  rcases dispatchStep_shape env s s' h with ⟨n, rest, l, hp, hl, hlt, rfl⟩ |
    ⟨p, ro, r, ho, hr, rfl⟩
  · simp [loopMeasure, admitState, hp]
    omega
  · simp [loopMeasure, drainState, ho]
    omega

theorem dispatchLoop_isSome (env : Env) :
    ∀ (fuel : Nat) (s : LoopState), loopMeasure s < fuel →
      (dispatchLoop env fuel s).isSome := by
  intro fuel
  induction fuel with
  | zero => intro s h; omega
  | succ f ih =>
    intro s h
    unfold dispatchLoop
    by_cases hg : loopGuard s = true
    · rw [if_pos hg]
      cases hstep : dispatchStep env s with
      | error e => rfl
      | ok s' =>
        have hm := dispatchStep_measure env s s' hstep
        exact ih s' (by omega)
    · rw [if_neg hg]
      rfl

theorem loopGuard_false_iff (s : LoopState) :
    loopGuard s = false ↔ s.pending = [] ∧ s.openStreams = [] := by
  simp [loopGuard, List.isEmpty_iff, and_comm]

theorem dispatchStep_error_decode (env : Env) (s : LoopState) (e : ApnsError)
    (hs : stateInv s) (hg : loopGuard s = true)
    (h : dispatchStep env s = .error e) : e = .responseDecodeFailed := by
  obtain ⟨l, hl, h1, h1000⟩ := updatedTracker_clamped env s hs
  unfold dispatchStep at h
  split at h
  · rename_i hp
    rcases drainStep_error _ _ _ _ h with ⟨he, ho⟩ | he
    · exfalso
      rw [loopGuard_false_iff s |>.2 ⟨hp, ho⟩] at hg
      exact Bool.false_ne_true hg
    · exact he
  · rename_i n rest hp
    split at h
    · rename_i hss
      exfalso
      unfold should_send_notification at hss
      rw [hl] at hss
      simp at hss
    · exact absurd h (by simp)
    · rename_i hss
      rcases drainStep_error _ _ _ _ h with ⟨he, ho⟩ | he
      · exfalso
        unfold should_send_notification at hss
        rw [hl] at hss
        simp [ho] at hss
        omega
      · exact he

/-- Claim C6: batch dispatch terminates — from the initial state the loop
yields a verdict within 2n+1 iterations; the loop exits exactly when the
input cursor is exhausted and the open-streams queue is empty; every
successful iteration makes progress (the measure strictly decreases); and
because a reachable state always carries a clamped effective limit of at
least 1, an iteration can never fail by popping an empty deque (the deadlock
a zero limit would cause) nor by comparing against an unset limit. -/
theorem batch_dispatch_terminates (env : Env) (ns : List Notification) :
    (send_notification_batch env ns).isSome ∧
    (∀ (s : LoopState) (fuel : Nat), loopGuard s = false →
      dispatchLoop env (fuel + 1) s = some (.ok s.results)) ∧
    (∀ s : LoopState, loopGuard s = false ↔ s.pending = [] ∧ s.openStreams = []) ∧
    (∀ s s' : LoopState, dispatchStep env s = .ok s' → loopMeasure s' < loopMeasure s) ∧
    (∀ s : LoopState, Reachable env (initState ns) s → stateInv s) ∧
    (∀ s : LoopState, stateInv s → loopGuard s = true →
      dispatchStep env s ≠ .error .popFromEmptyDeque ∧
      dispatchStep env s ≠ .error .limitUnset) := by
  refine ⟨?_, ?_, loopGuard_false_iff, ?_, reachable_stateInv env ns, ?_⟩
  · apply dispatchLoop_isSome
    simp [loopMeasure, initState]
  · intro s fuel hg
    unfold dispatchLoop
    rw [if_neg (by simp [hg])]
  · intro s s' h
    have := dispatchStep_measure env s s' h
    omega
  · intro s hs hg
    constructor
    · intro hbad
      have := dispatchStep_error_decode env s _ hs hg hbad
      simp at this
    · intro hbad
      have := dispatchStep_error_decode env s _ hs hg hbad
      simp at this

theorem batch_dispatch_terminates_w :
    (send_notification_batch envW nsW).isSome ∧
    dispatchLoop envW 1 (initState []) = some (.ok (initState ([] : List Notification)).results) :=
  ⟨(batch_dispatch_terminates envW nsW).1,
   (batch_dispatch_terminates envW []).2.1 (initState []) 0 rfl⟩

/-- Claim C2 (amended): every loop iteration either leaves the number of open
streams no larger than before (the drain branch), or admits a notification
only because the open count was strictly below the effective limit read this
iteration, the new count then being at most that limit.  The open count can
therefore exceed the current limit only when the server lowers the limit below
the already-open count, in which case admission stops but open streams are
never cancelled. -/
theorem admission_respects_current_limit (env : Env) (s s' : LoopState)
    (h : dispatchStep env s = .ok s') :
    s'.openStreams.length ≤ s.openStreams.length ∨
    ∃ l, s'.tracker.max_concurrent_streams = some l ∧
      (s'.openStreams.length : Int) ≤ l := by
  rcases dispatchStep_shape env s s' h with ⟨n, rest, l, hp, hl, hlt, rfl⟩ |
    ⟨p, ro, r, ho, hr, rfl⟩
  · right
    refine ⟨l, by simpa [admitState] using hl, ?_⟩
    simp [admitState]
    omega
  · left
    simp [drainState, ho]

theorem reachable_sC4 : Reachable envC (initState nsC) sC4 := by
  have r1 : Reachable envC (initState nsC) sC1 := .step .refl rfl rfl
  have r2 : Reachable envC (initState nsC) sC2 := .step r1 rfl rfl
  have r3 : Reachable envC (initState nsC) sC3 := .step r2 rfl rfl
  exact .step r3 rfl rfl

/-- Claim C2 counterexample: a reachable state of the scheduling loop in which
two streams are open while the current effective limit is 1 — the server
advertised limit 3 for three iterations (three streams were admitted) and then
lowered it to 1; one drain later two streams are still open, exceeding the
current limit. -/
theorem admission_bound_violated :
    Reachable envC (initState nsC) sC4 ∧
    sC4.tracker.max_concurrent_streams = some 1 ∧
    sC4.openStreams.length = 2 ∧
    ¬ ((sC4.openStreams.length : Int) ≤ 1) :=
  ⟨reachable_sC4, rfl, rfl, by decide⟩

theorem admission_respects_current_limit_w :
    sC1.openStreams.length ≤ (initState nsC).openStreams.length ∨
    ∃ l, sC1.tracker.max_concurrent_streams = some l ∧
      (sC1.openStreams.length : Int) ≤ l :=
  admission_respects_current_limit envC (initState nsC) sC1 rfl

/-- Claim C3: responses are drained in strict submission (FIFO) order — in
every reachable state of a batch dispatch, whatever the transport's completion
order (the responses function is arbitrary), the submission trace equals the
drain trace followed by the still-open stream ids in queue order; hence drain
calls happen exactly in submission order and each drain targets the oldest
outstanding stream. -/
theorem fifo_drain_order (env : Env) (ns : List Notification) (s : LoopState)
    (h : Reachable env (initState ns) s) :
    s.submitted = s.drained ++ s.openStreams.map RequestStream.stream_id := by
  induction h with
  | refl => rfl
  | step hr hg hstep ih =>
    rcases dispatchStep_shape _ _ _ hstep with ⟨n, rest, l, hp, hl, hlt, rfl⟩ |
      ⟨p, ro, r, ho, hr2, rfl⟩
    · simp [admitState, ih]
    · simp [drainState, ih, ho]

theorem fifo_drain_order_w :
    sC4.submitted = sC4.drained ++ sC4.openStreams.map RequestStream.stream_id :=
  fifo_drain_order envC nsC sC4 reachable_sC4

theorem keys_nil : keys [] = [] := rfl

theorem keys_cons (k v : String) (m : List (String × String)) :
    keys ((k, v) :: m) = k :: keys m := rfl

theorem keys_dictInsert_mem (m : List (String × String)) (k v a : String) :
    a ∈ keys (dictInsert m k v) ↔ a = k ∨ a ∈ keys m := by
  induction m with
  | nil => simp [dictInsert, keys]
  | cons kv rest ih =>
    obtain ⟨k', v'⟩ := kv
    unfold dictInsert
    split_ifs with hk
    · subst hk
      simp only [keys_cons, List.mem_cons]
      tauto
    · simp only [keys_cons, List.mem_cons, ih]
      tauto

theorem keys_dictInsert_nodup (m : List (String × String)) (k v : String)
    (h : (keys m).Nodup) : (keys (dictInsert m k v)).Nodup := by
  induction m with
  | nil => simp [dictInsert, keys]
  | cons kv rest ih =>
    obtain ⟨k', v'⟩ := kv
    rw [keys_cons, List.nodup_cons] at h
    obtain ⟨hk', hrest⟩ := h
    unfold dictInsert
    split_ifs with hk
    · subst hk
      rw [keys_cons, List.nodup_cons]
      exact ⟨hk', hrest⟩
    · rw [keys_cons, List.nodup_cons]
      refine ⟨?_, ih hrest⟩
      intro hmem
      rcases (keys_dictInsert_mem rest k v k').1 hmem with h1 | h2
      · exact hk h1
      · exact hk' h2

theorem dispatchStep_allTokens (env : Env) (s s' : LoopState)
    (h : dispatchStep env s = .ok s') (a : String) :
    a ∈ allTokens s' ↔ a ∈ allTokens s := by
  rcases dispatchStep_shape env s s' h with ⟨n, rest, l, hp, hl, hlt, rfl⟩ |
    ⟨p, ro, r, ho, hr, rfl⟩
  · dsimp only [allTokens, admitState]
    rw [hp]
    simp only [List.map_append, List.map_cons, List.map_nil, List.mem_append,
      List.mem_cons, List.not_mem_nil]
    tauto
  · dsimp only [allTokens, drainState]
    rw [ho]
    simp only [List.map_cons, List.mem_append, List.mem_cons, keys_dictInsert_mem]
    tauto

theorem dispatchStep_nodupKeys (env : Env) (s s' : LoopState)
    (h : dispatchStep env s = .ok s') (hn : (keys s.results).Nodup) :
    (keys s'.results).Nodup := by
  rcases dispatchStep_shape env s s' h with ⟨n, rest, l, hp, hl, hlt, rfl⟩ |
    ⟨p, ro, r, ho, hr, rfl⟩
  · simpa [admitState] using hn
  · exact keys_dictInsert_nodup _ _ _ hn

theorem dispatchLoop_ok_keys (env : Env) :
    ∀ (fuel : Nat) (s : LoopState) (m : List (String × String)),
      dispatchLoop env fuel s = some (.ok m) →
      ((keys s.results).Nodup → (keys m).Nodup) ∧
      (∀ a, a ∈ keys m ↔ a ∈ allTokens s) := by
  intro fuel
  induction fuel with
  | zero =>
    intro s m h
    simp [dispatchLoop] at h
  | succ f ih =>
    intro s m h
    unfold dispatchLoop at h
    by_cases hg : loopGuard s = true
    · rw [if_pos hg] at h
      cases hstep : dispatchStep env s with
      | error e =>
        rw [hstep] at h
        simp at h
      | ok s' =>
        rw [hstep] at h
        obtain ⟨hnodup, hmem⟩ := ih s' m h
        refine ⟨fun hn => hnodup (dispatchStep_nodupKeys env s s' hstep hn), ?_⟩
        intro a
        rw [hmem a, dispatchStep_allTokens env s s' hstep a]
    · rw [if_neg hg] at h
      injection h with h1
      injection h1 with h2
      subst h2
      have hge : loopGuard s = false := by
        cases hb : loopGuard s
        · rfl
        · exact absurd hb hg
      obtain ⟨hp, ho⟩ := (loopGuard_false_iff s).1 hge
      refine ⟨id, fun a => ?_⟩
      simp [allTokens, hp, ho]

/-- Claim C1: when send_notification_batch returns a result map, that map has
exactly one entry per distinct recipient token of the input — its keys are
duplicate-free and a token is a key exactly when it is a token of some input
notification; when the dispatch fails, the run yields an error value carrying
no map at all, so no partial map is ever returned. -/
theorem batch_result_complete (env : Env) (ns : List Notification)
    (m : List (String × String)) (h : send_notification_batch env ns = some (.ok m)) :
    (keys m).Nodup ∧ ∀ a, a ∈ keys m ↔ a ∈ ns.map Notification.token := by
  obtain ⟨hnodup, hmem⟩ := dispatchLoop_ok_keys env (2 * ns.length + 1) (initState ns) m h
  refine ⟨hnodup (by simp [initState, keys]), fun a => ?_⟩
  rw [hmem a]
  simp [allTokens, initState, keys]

theorem batch_result_complete_w :
    (keys mW).Nodup ∧ ("a" ∈ keys mW ↔ "a" ∈ nsW.map Notification.token) :=
  ⟨(batch_result_complete envW nsW mW rfl).1,
   (batch_result_complete envW nsW mW rfl).2 "a"⟩
